import Mathlib

/-!
Shallow embedding of the cookie-handling, page-classification and retry
logic of `src/naverProductScraper.js` (Naver SmartStore scraper), together
with theorems settling the specification claims about that code.

JavaScript strings are modelled as Lean `String`; `String.prototype.includes`
is modelled as substring search on the character lists; `toLowerCase` is
modelled by mapping `Char.toLower` (identical on the ASCII and Hangul
characters the program uses).  Machine numbers that matter (cookie expiry
seconds, millisecond clocks) are modelled as `Int`.  Thrown exceptions are
modelled as `Option`/`Except` failure values, and the nondeterministic
outcomes of browser interactions are abstracted as oracle functions passed
to the loop models.
-/

namespace NaverScraper

/-- `toLowerCase` on a string, modelled characterwise. -/
def lowerStr (s : String) : String :=
  String.mk (s.data.map Char.toLower)

/-- Does `hay` start with `needle`? (helper for substring search). -/
def headMatch : List Char → List Char → Bool
  | _, [] => true
  | [], _ :: _ => false
  | c :: cs, d :: ds => c == d && headMatch cs ds

/-- Does `hay` contain `needle` as a contiguous run? -/
def subMatch (needle : List Char) : List Char → Bool
  | [] => headMatch [] needle
  | c :: cs => headMatch (c :: cs) needle || subMatch needle cs

/-- JavaScript `hay.includes(needle)`. -/
def jsIncludes (hay needle : String) : Bool :=
  subMatch needle.data hay.data

/-- Split a character list at every occurrence of `sep` (helper for the
JS `String.prototype.split` model).  The empty list yields `[[]]`, the
way JS `''.split(sep)` yields `['']`. -/
def splitChars (sep : Char) : List Char → List (List Char)
  | [] => [[]]
  | c :: cs =>
      let rest := splitChars sep cs
      if c = sep then [] :: rest
      else
        match rest with
        | [] => [[c]]
        | g :: gs => (c :: g) :: gs

/-- JavaScript `s.split(sep)` for a single-character separator (the only
shape the source uses: `split(':')` and `split('?')`). -/
def jsSplit (s : String) (sep : Char) : List String :=
  (splitChars sep s.data).map String.mk

/-! ## ProxyConfig (`parseProxy` / `getBrowserArgs`, source lines 49-71) -/

/-- The state a `ProxyConfig` instance holds after construction:
`server` string plus optional `{username, password}` credentials. -/
structure ProxyConfig where
  server : String
  auth : Option (String × String)
deriving DecidableEq, Repr

/-- `ProxyConfig.parseProxy`: constructor initializes `server = ''`,
`auth = null`; a falsy (empty) input is left untouched; otherwise the
input is split on `:`; exactly four parts yield `host:port` plus
credentials, any other shape stores the whole string as `server`. -/
def parseProxy (proxyString : String) : ProxyConfig :=
  if proxyString = "" then ⟨"", none⟩
  else
    let parts := jsSplit proxyString ':'
    if parts.length = 4 then
      ⟨parts.getD 0 "" ++ ":" ++ parts.getD 1 "",
       some (parts.getD 2 "", parts.getD 3 "")⟩
    else ⟨proxyString, none⟩

/-- `ProxyConfig.getBrowserArgs`: a truthy (non-empty) `server` yields the
single `--proxy-server=` argument, otherwise no argument. -/
def getBrowserArgs (c : ProxyConfig) : List String :=
  if c.server = "" then [] else ["--proxy-server=" ++ c.server]

/-! ## Cookie model (the fields the code under scrutiny reads) -/

/-- A harvested cookie: the fields `mergeCookies`, `areCookiesFresh` and
the harvest filter read.  `expires` is the optional expiry in seconds
since the epoch (absent on the JS object ↦ `none`). -/
structure Cookie where
  name : String
  value : String
  domain : String
  path : String
  expires : Option Int
deriving DecidableEq, Repr

/-- `getCookieSource` result. -/
inductive CookieSource
  | shopping
  | naver
deriving DecidableEq, Repr

/-- `NaverProductScraper.getCookieSource` (lines 1308-1319): the
domain/path substring heuristic.  An absent JS `domain`/`path` behaves
like the empty string (both are falsy / contain no substring). -/
def getCookieSource (c : Cookie) : CookieSource :=
  if jsIncludes c.domain "shopping.naver.com" then .shopping
  else if jsIncludes c.domain "naver.com" then .naver
  else if jsIncludes c.path "shopping" then .shopping
  else .naver

/-- The identity key `mergeCookies` uses: `` `${name}-${domain}` ``. -/
def cookieKey (c : Cookie) : String :=
  c.name ++ "-" ++ c.domain

/-- JS `Map.get` over an insertion-ordered association list (the way a
JS `Map` iterates). -/
def mapGet : List (String × Cookie) → String → Option Cookie
  | [], _ => none
  | (k, v) :: m, key => if k = key then some v else mapGet m key

/-- JS `Map.set` (replace in place, else append). -/
def mapSet : List (String × Cookie) → String → Cookie → List (String × Cookie)
  | [], key, v => [(key, v)]
  | (k, w) :: m, key, v =>
      if k = key then (key, v) :: m else (k, w) :: mapSet m key v

/-- One iteration of the `for (const cookie of cookies)` loop body of
`mergeCookies` (lines 1274-1300). -/
def mergeInsert (m : List (String × Cookie)) (c : Cookie) : List (String × Cookie) :=
  match mapGet m (cookieKey c) with
  | some existing =>
      if getCookieSource existing = CookieSource.naver
          ∧ getCookieSource c = CookieSource.shopping then
        mapSet m (cookieKey c) c
      else if getCookieSource existing = CookieSource.shopping
          ∧ getCookieSource c = CookieSource.naver then
        m
      else
        mapSet m (cookieKey c) c
  | none => mapSet m (cookieKey c) c

/-- `NaverProductScraper.mergeCookies` (lines 1262-1306): non-array or
empty input yields `[]`; otherwise the cookies are folded into a JS `Map`
keyed by `name-domain` and the map's values are returned in insertion
order. -/
def mergeCookies (cookies : List Cookie) : List Cookie :=
  if cookies.isEmpty then []
  else (cookies.foldl mergeInsert []).map Prod.snd

/-! ## Cookie freshness (`areCookiesFresh`, lines 1226-1260) -/

/-- 24 hours in milliseconds (`maxAge` in the source). -/
def maxCookieAgeMs : Int := 24 * 60 * 60 * 1000

/-- The per-cookie test of the expiry loop: `if (cookie.expires)` is a JS
truthiness test, so an absent or zero `expires` is skipped; otherwise the
cookie is expired when `expires * 1000 < now` (milliseconds). -/
def cookieExpired (now : Int) (c : Cookie) : Bool :=
  match c.expires with
  | some e => e != 0 && decide (e * 1000 < now)
  | none => false

/-- `NaverProductScraper.areCookiesFresh`: `now` is the current clock in
milliseconds and `fileMtime` the snapshot file's mtime in milliseconds
(`none` models `fs.statSync` throwing, which the source swallows). -/
def areCookiesFresh (cookies : List Cookie) (now : Int)
    (fileMtime : Option Int) : Bool :=
  if cookies.isEmpty then false
  else if cookies.any (cookieExpired now) then false
  else
    match fileMtime with
    | some m => if now - m > maxCookieAgeMs then false else true
    | none => true

/-! ## Harvest-time exclusion filter (lines 884-888) -/

/-- The predicate of `cookies.filter(...)` in `findProductAndGetCookies`:
keep a cookie iff neither its lowercased name nor its lowercased value
contains `"sus"`.  (`cookie.value || ''`: an absent value behaves like
the empty string, which contains no substring.) -/
def keepCookie (c : Cookie) : Bool :=
  !(jsIncludes (lowerStr c.name) "sus") && !(jsIncludes (lowerStr c.value) "sus")

/-- The harvest-time exclusion filter. -/
def filterExcludedCookies (cookies : List Cookie) : List Cookie :=
  cookies.filter keepCookie

/-! ## Page classification (`PageValidator`, lines 535-580, and the check
order of `validateProductPage`, lines 1321-1346) -/

/-- The outcome of classifying a page by title/URL. -/
inductive PageClass
  | NORMAL
  | CAPTCHA
  | ERROR
  | BLOCKED
deriving DecidableEq, Repr

/-- `PageValidator.isCaptchaPage`'s pattern list, verbatim from the source
file (the non-ASCII entries are the literal characters stored in the
file). -/
def captchaPatterns : List String :=
  ["Ï∫°Ï∞®", "Captcha", "captcha", "CAPTCHA", "Ïù∏Ï¶ù", "verification",
   "Verification", "Î≥¥Ïïà", "Security", "security", "ÌôïÏù∏", "Confirm",
   "confirm", "Î°úÎ¥á", "Robot", "robot", "ÏûêÎèôÌôî", "Automation",
   "automation"]

/-- `PageValidator.isErrorPage`'s pattern list, verbatim. -/
def errorPagePatterns : List String :=
  ["[ÏóêÎü¨]", "ÏóêÎü¨ÌéòÏù¥ÏßÄ", "ÏãúÏä§ÌÖúÏò§Î•ò", "Error", "404", "500",
   "ÌéòÏù¥ÏßÄÎ•º Ï∞æÏùÑ Ïàò ÏóÜÏäµÎãàÎã§", "Page Not Found", "Not Found",
   "Ï†ëÍ∑ºÌï† Ïàò ÏóÜÏäµÎãàÎã§", "Access Denied", "Forbidden", "403",
   "ÏÑúÎ≤Ñ Ïò§Î•ò", "Server Error", "Internal Server Error", "Ïò§Î•ò",
   "ÏóêÎü¨", "error", "Error", "ERROR"]

/-- `PageValidator.isBlockedPage`'s pattern list, verbatim. -/
def blockPatterns : List String :=
  ["Ï∞®Îã®", "Blocked", "blocked", "Ï†úÌïú", "Limited", "limited",
   "ÏùºÏãúÏ†Å", "Temporary", "temporary", "Ï†ïÏßÄ", "Suspended",
   "suspended", "ÎπÑÏ†ïÏÉÅ", "Abnormal", "abnormal", "ÏùòÏã¨",
   "Suspicious", "suspicious"]

/-- The shared matching rule of the three `PageValidator` predicates:
some pattern is a case-insensitive substring of the title or of the
URL. -/
def matchesAny (patterns : List String) (pageTitle url : String) : Bool :=
  patterns.any fun p =>
    jsIncludes (lowerStr pageTitle) (lowerStr p)
      || jsIncludes (lowerStr url) (lowerStr p)

/-- `PageValidator.isCaptchaPage`. -/
def isCaptchaPage (pageTitle url : String) : Bool :=
  matchesAny captchaPatterns pageTitle url

/-- `PageValidator.isErrorPage`. -/
def isErrorPage (pageTitle url : String) : Bool :=
  matchesAny errorPagePatterns pageTitle url

/-- `PageValidator.isBlockedPage`. -/
def isBlockedPage (pageTitle url : String) : Bool :=
  matchesAny blockPatterns pageTitle url

/-- The classification implied by `validateProductPage`'s check order
(lines 1330-1346): captcha is tested first, then error, then blocked;
a page passing all three is treated as normal. -/
def classifyProductPage (pageTitle url : String) : PageClass :=
  if isCaptchaPage pageTitle url then .CAPTCHA
  else if isErrorPage pageTitle url then .ERROR
  else if isBlockedPage pageTitle url then .BLOCKED
  else .NORMAL

/-! ## The `scrape` attempt loop (lines 621-666) -/

/-- JS `url.split('?')[0]`: everything from the first `?` onward is
dropped. -/
def stripQuery (url : String) : String :=
  (jsSplit url '?').headD ""

/-- The structured failure value `scrape` returns after exhausting its
attempts. -/
structure ScrapeFailure where
  error : String
  message : String
  productUrl : String
deriving DecidableEq, Repr

/-- The value `scrape` hands back to its caller: extracted page state or
the structured failure. -/
inductive ScrapeResult (α : Type)
  | ok (state : α)
  | fail (f : ScrapeFailure)
deriving DecidableEq, Repr

/-- The `while (attempt < MAX_RETRIES && !result)` loop of `scrape`.
`outcome n u` abstracts one call of `accessProductPageWithCookies` on
attempt `n` with product URL `u`: `some a` is a successful extraction,
`none` models the attempt throwing (the `catch` swallows the error).
Returns (result, final productUrl binding, per-attempt URL trace).
The fuel argument starts at `MAX_RETRIES = 3`. -/
def runAttempts (outcome : Nat → String → Option α) :
    Nat → Nat → String → Option α × String × List String
  | 0, _, url => (none, url, [])
  | fuel + 1, attempt, url =>
      let a := attempt + 1
      let url' := if a = 2 then stripQuery url else url
      match outcome a url' with
      | some r => (some r, url', [url'])
      | none =>
          if a ≥ 3 then (none, url', [url'])
          else
            let rest := runAttempts outcome fuel a url'
            (rest.1, rest.2.1, url' :: rest.2.2)

/-- `NaverProductScraper.scrape`, with the browser work of each attempt
abstracted by `outcome`.  Every attempt's error is caught inside the
loop, so the model is a total function: no exception reaches the
caller.  Note the failure value carries the `productUrl` binding as it
stands *after* the loop (mutated at attempt 2). -/
def scrapeModel (outcome : Nat → String → Option α) (productUrl : String) :
    ScrapeResult α :=
  match (runAttempts outcome 3 0 productUrl).1 with
  | some r => .ok r
  | none =>
      .fail ⟨"SMARTSTORE_ACCESS_FAILED",
             "Tidak bisa akses smartstore atau cookie X-Wtm-Cpt-Tk tidak ditemukan setelah semua percobaan",
             (runAttempts outcome 3 0 productUrl).2.1⟩

/-- The product URLs passed, in order, to the per-attempt navigation. -/
def scrapeTrace (outcome : Nat → String → Option α) (productUrl : String) :
    List String :=
  (runAttempts outcome 3 0 productUrl).2.2

/-! ## `initializeCookies` (lines 1545-1606) with the browser-close in
`browseNaverAndGetCookies`'s `finally` block (lines 728-732) -/

/-- Observable outcome of one `initializeCookies` run: the returned
boolean plus how many times `BrowserManager.launch` and
`BrowserManager.closeBrowser` were invoked. -/
structure InitResult where
  success : Bool
  launches : Nat
  closes : Nat
deriving DecidableEq, Repr

/-- The `while (attempt < MAX_RETRIES && !success)` loop of
`initializeCookies`.  `browseOk n` abstracts whether attempt `n`'s call
of `browseNaverAndGetCookies` completes without throwing (launch and
page setup are taken to succeed, as in the all-attempts-blocked
scenario the spec describes).  Each attempt launches once; the callee's
`finally` block closes the browser once in every case; the caller's
`catch` closes it a second time on failure. -/
def initGo (browseOk : Nat → Bool) :
    Nat → Nat → Nat → Nat → InitResult
  | 0, _, launches, closes => ⟨false, launches, closes⟩
  | fuel + 1, attempt, launches, closes =>
      let a := attempt + 1
      let launches' := launches + 1
      let closes' := closes + 1
      if browseOk a then ⟨true, launches', closes'⟩
      else
        let closes'' := closes' + 1
        if a ≥ 3 then ⟨false, launches', closes''⟩
        else initGo browseOk fuel a launches' closes''

/-- `initializeCookies`, abstracted over the per-attempt outcome. -/
def initCookiesRun (browseOk : Nat → Bool) : InitResult :=
  initGo browseOk 3 0 0 0

/-- The per-attempt outcome oracle in which every attempt of the
acquisition flow fails (e.g. every attempt raises a classified-block
error inside `browseNaverAndGetCookies`). -/
def allAttemptsFail : Nat → Bool := fun _ => false

/-! ## Extended-behavior timeout absorption in
`findProductAndGetCookies` (lines 862-960) -/

/-- The steps of `findProductAndGetCookies` after the storefront tab is
validated, as observable events. -/
inductive AcqStep
  | extendedBehavior
  | timeoutWarnLogged
  | harvestCookies
  | persistCookies
  | clickProduct
deriving DecidableEq, Repr

/-- The `Promise.race` of `simulateExtendedBehavior` against the 60 s
timer: `simOutcome = some r` means the simulation settled first with
result `r`; `none` means the 60 s timer fired first, which surfaces as
an error whose message is `'Human behavior timeout'`. -/
def raceWithTimeout (simOutcome : Option (Except String Unit)) :
    Except String Unit :=
  match simOutcome with
  | some r => r
  | none => Except.error "Human behavior timeout"

/-- The tail of `findProductAndGetCookies` from the extended-behavior
simulation onward.  The `try/catch` around the race absorbs any error:
it logs it, adds a warn log when the message contains `'timeout'`, and
the flow then unconditionally continues to cookie harvesting,
persistence and the product click.  The result is `Except.ok`
regardless of the race's outcome. -/
def findProductTail (simOutcome : Option (Except String Unit)) :
    Except String (List AcqStep) :=
  let behaviorEvents : List AcqStep :=
    match raceWithTimeout simOutcome with
    | Except.ok _ => [.extendedBehavior]
    | Except.error m =>
        if jsIncludes m "timeout" then [.extendedBehavior, .timeoutWarnLogged]
        else [.extendedBehavior]
  Except.ok (behaviorEvents ++ [.harvestCookies, .persistCookies, .clickProduct])

/-! ## `huntForCookies` (lines 1103-1137) -/

/-- The `while (cookieScrollAttempts < maxCookieScrollAttempts)` loop of
`huntForCookies`.  `found k` abstracts whether the `X-Wtm-Cpt-Tk` cookie
is present at the recheck after scroll cycle `k`.  Returns the boolean
result together with the number of scroll-and-recheck cycles performed.
The fuel starts at `maxCookieScrollAttempts = 5`. -/
def huntGo (found : Nat → Bool) : Nat → Nat → Bool × Nat
  | 0, attempts => (false, attempts)
  | fuel + 1, attempts =>
      if attempts < 5 then
        let a := attempts + 1
        if found a then (true, a) else huntGo found fuel a
      else (false, attempts)

/-- `NaverProductScraper.huntForCookies`, abstracted over cookie
appearance.  It returns a boolean (give up ⇒ `false`), never throws. -/
def huntForCookies (found : Nat → Bool) : Bool × Nat :=
  huntGo found 5 0

/-! ## Concrete inputs used by witnesses and counterexamples -/

/-- A cookie whose `expires` field is literally `0` (the epoch). -/
def epochExpiryCookie : Cookie := ⟨"NNB", "v", ".naver.com", "/", some 0⟩

/-- A cookie with no expiry field. -/
def sessionOnlyCookie : Cookie := ⟨"NNB", "v", ".naver.com", "/", none⟩

/-- A cookie the domain/path heuristic attributes to the shopping side
(domain without `naver.com`, path containing `shopping`). -/
def shopPathCookie : Cookie := ⟨"tok", "v", "ex.com", "/shopping/x", none⟩

/-- A cookie sharing `shopPathCookie`'s identity key that the heuristic
attributes to the portal (naver) side. -/
def portalPathCookie : Cookie := ⟨"tok", "w", "ex.com", "/", none⟩

/-- A sibling of `portalPathCookie` with a different value (for the
later-wins check on equal sources). -/
def portalPathCookie2 : Cookie := ⟨"tok", "w2", "ex.com", "/p", none⟩

/-- The attempt oracle in which extraction never succeeds. -/
def noExtraction : Nat → String → Option Unit := fun _ _ => none

/-- The cookie-appearance oracle in which the session cookie shows up
after the third scroll cycle. -/
def foundAtThree : Nat → Bool := fun n => n == 3

/-! # Theorems -/

/-! ## C9: harvest-time exclusion filter -/

/-- C9: the exclusion filter removes exactly the cookies whose lowercased
name or lowercased value contains `"sus"`: a cookie is in the filtered
output iff it is in the input and has that substring in neither field. -/
theorem filterExcluded_mem_iff (cookies : List Cookie) (c : Cookie) :
    c ∈ filterExcludedCookies cookies ↔
      c ∈ cookies
        ∧ jsIncludes (lowerStr c.name) "sus" = false
        ∧ jsIncludes (lowerStr c.value) "sus" = false := by
  simp [filterExcludedCookies, keepCookie, List.mem_filter,
    Bool.and_eq_true, Bool.not_eq_true', and_assoc]

/-! ## C10: proxy-string parsing -/

/-- C10: `parseProxy` is total with exactly two non-empty shapes: an input
with exactly four colon-separated parts yields `server = part1:part2` and
credentials from parts 3 and 4; every other non-empty input becomes the
whole `server` with no credentials (three-part strings included); the
empty input leaves `server` empty and `getBrowserArgs` yields no proxy
argument. -/
theorem parseProxy_shapes (s : String) :
    (s = "" → parseProxy s = ⟨"", none⟩ ∧ getBrowserArgs (parseProxy s) = [])
    ∧ (s ≠ "" → (jsSplit s ':').length = 4 →
        parseProxy s =
          ⟨(jsSplit s ':').getD 0 "" ++ ":" ++ (jsSplit s ':').getD 1 "",
           some ((jsSplit s ':').getD 2 "", (jsSplit s ':').getD 3 "")⟩)
    ∧ (s ≠ "" → (jsSplit s ':').length ≠ 4 →
        parseProxy s = ⟨s, none⟩) := by
  refine ⟨fun h => ?_, fun h h4 => ?_, fun h h4 => ?_⟩
  · subst h
    exact ⟨rfl, rfl⟩
  · simp [parseProxy, h, h4]
  · simp [parseProxy, h, h4]

/-- Witness for C10: the four-part shape at `"h:1:u:pw"`. -/
theorem parseProxy_shapes_witness :
    parseProxy "h:1:u:pw" =
      ⟨(jsSplit "h:1:u:pw" ':').getD 0 "" ++ ":" ++ (jsSplit "h:1:u:pw" ':').getD 1 "",
       some ((jsSplit "h:1:u:pw" ':').getD 2 "", (jsSplit "h:1:u:pw" ':').getD 3 "")⟩ :=
  (parseProxy_shapes "h:1:u:pw").2.1 (by decide) (by decide)

/-! ## C5: classification precedence -/

/-- C5: the page-validation path checks captcha before error before
blocked, so classification obeys the precedence
CAPTCHA > ERROR > BLOCKED > NORMAL; in particular a (title, url) pair
matching both the captcha list and the error list classifies as CAPTCHA,
never ERROR. -/
theorem classify_precedence (t u : String) :
    (isCaptchaPage t u = true → classifyProductPage t u = PageClass.CAPTCHA)
    ∧ (isCaptchaPage t u = true → isErrorPage t u = true →
        classifyProductPage t u = PageClass.CAPTCHA
          ∧ classifyProductPage t u ≠ PageClass.ERROR)
    ∧ (isCaptchaPage t u = false → isErrorPage t u = true →
        classifyProductPage t u = PageClass.ERROR)
    ∧ (isCaptchaPage t u = false → isErrorPage t u = false →
        isBlockedPage t u = true → classifyProductPage t u = PageClass.BLOCKED)
    ∧ (isCaptchaPage t u = false → isErrorPage t u = false →
        isBlockedPage t u = false → classifyProductPage t u = PageClass.NORMAL) := by
  refine ⟨fun hc => ?_, fun hc he => ?_, fun hc he => ?_,
    fun hc he hb => ?_, fun hc he hb => ?_⟩
  · simp [classifyProductPage, hc]
  · simp [classifyProductPage, hc]
  · simp [classifyProductPage, hc, he]
  · simp [classifyProductPage, hc, he, hb]
  · simp [classifyProductPage, hc, he, hb]

/-- Witness for C5: `"Captcha Error"` matches both the captcha and the
error pattern lists and classifies as CAPTCHA. -/
theorem classify_precedence_witness :
    classifyProductPage "Captcha Error" "" = PageClass.CAPTCHA
      ∧ classifyProductPage "Captcha Error" "" ≠ PageClass.ERROR :=
  (classify_precedence "Captcha Error" "").2.1 (by decide) (by decide)

/-! ## C2: cookie freshness -/

/-- Counterexample to C2 as stated: a cookie whose explicit `expires`
field is `0` (the epoch, long before the current time) does **not** make
`areCookiesFresh` return false — the JS truthiness test `if
(cookie.expires)` skips a zero expiry, so with a fresh snapshot file the
function returns true even though `0 * 1000 < now`. -/
theorem areCookiesFresh_zero_expiry_cex :
    areCookiesFresh [epochExpiryCookie] 1700000000000 (some 1700000000000) = true
      ∧ ((0 : Int) * 1000 < 1700000000000) := by
  exact ⟨rfl, by decide⟩

/-- C2 (amended): `areCookiesFresh` returns false for an empty cookie
list; false whenever some cookie has a **nonzero** explicit expiry
earlier than the current time (a zero expiry is skipped by the JS
truthiness test); false whenever the snapshot file's last-write time is
more than 24 hours in the past; and true for a non-empty list with no
nonzero-and-expired cookie and a snapshot written within 24 hours. -/
theorem areCookiesFresh_spec (cookies : List Cookie) (now : Int)
    (mtime : Option Int) :
    (cookies = [] → areCookiesFresh cookies now mtime = false)
    ∧ (∀ c ∈ cookies, ∀ e : Int, c.expires = some e → e ≠ 0 → e * 1000 < now →
        areCookiesFresh cookies now mtime = false)
    ∧ (∀ m : Int, mtime = some m → now - m > maxCookieAgeMs →
        areCookiesFresh cookies now mtime = false)
    ∧ (cookies ≠ [] →
        (∀ c ∈ cookies, ∀ e : Int, c.expires = some e → e = 0 ∨ ¬ e * 1000 < now) →
        (∀ m : Int, mtime = some m → now - m ≤ maxCookieAgeMs) →
        areCookiesFresh cookies now mtime = true) := by
  refine ⟨fun h => ?_, fun c hc e he hne hlt => ?_, fun m hm hgt => ?_,
    fun hne hexp hmt => ?_⟩
  · subst h
    rfl
  · have hbad : cookies.any (cookieExpired now) = true :=
      List.any_eq_true.mpr ⟨c, hc, by simp [cookieExpired, he, hne, hlt]⟩
    have hnonempty : cookies.isEmpty = false := by
      cases cookies with
      | nil => cases hc
      | cons a l => rfl
    simp [areCookiesFresh, hnonempty, hbad]
  · unfold areCookiesFresh
    split
    · rfl
    · split
      · rfl
      · subst hm
        simp [hgt]
  · have hnonempty : cookies.isEmpty = false := by
      cases cookies with
      | nil => exact absurd rfl hne
      | cons a l => rfl
    have hany : cookies.any (cookieExpired now) = false := by
      rw [List.any_eq_false]
      intro c hc
      unfold cookieExpired
      cases he : c.expires with
      | none => simp
      | some e =>
          rcases hexp c hc e he with h0 | hnl
          · simp [h0]
          · simp [hnl]
    unfold areCookiesFresh
    rw [hnonempty, hany]
    cases mtime with
    | none => rfl
    | some m =>
        have := hmt m rfl
        simp
        omega

/-- Witness for C2 (amended): a one-cookie list with no expiry field and
a just-written snapshot is fresh. -/
theorem areCookiesFresh_spec_witness :
    areCookiesFresh [sessionOnlyCookie] 1000 (some 500) = true :=
  (areCookiesFresh_spec [sessionOnlyCookie] 1000 (some 500)).2.2.2
    (by simp)
    (by
      intro c hc e he
      simp only [List.mem_singleton] at hc
      subst hc
      simp [sessionOnlyCookie] at he)
    (by
      intro m hm
      cases hm
      decide)

/-! ## C7: behavior-simulation timeout absorbed -/

/-- C7: whatever the race of the extended behavior simulation against its
60-second timer produces — in particular on timer expiry — the flow never
fails: it proceeds to cookie harvesting, persistence and the product
click, and on expiry the timeout is logged (the absorbing `catch` sees a
message containing `'timeout'`). -/
theorem behaviorTimeout_absorbed :
    (∀ simOutcome : Option (Except String Unit),
        ∃ steps, findProductTail simOutcome = Except.ok steps
          ∧ AcqStep.harvestCookies ∈ steps
          ∧ AcqStep.persistCookies ∈ steps
          ∧ AcqStep.clickProduct ∈ steps)
    ∧ findProductTail none =
        Except.ok [AcqStep.extendedBehavior, AcqStep.timeoutWarnLogged,
          AcqStep.harvestCookies, AcqStep.persistCookies,
          AcqStep.clickProduct] := by
  constructor
  · intro simOutcome
    cases simOutcome with
    | none =>
        refine ⟨[AcqStep.extendedBehavior, AcqStep.timeoutWarnLogged,
          AcqStep.harvestCookies, AcqStep.persistCookies,
          AcqStep.clickProduct], rfl, ?_, ?_, ?_⟩ <;> decide
    | some r =>
        cases r with
        | ok u =>
            refine ⟨[AcqStep.extendedBehavior, AcqStep.harvestCookies,
              AcqStep.persistCookies, AcqStep.clickProduct],
              rfl, ?_, ?_, ?_⟩ <;> decide
        | error m =>
            by_cases h : jsIncludes m "timeout" = true
            · refine ⟨[AcqStep.extendedBehavior, AcqStep.timeoutWarnLogged,
                AcqStep.harvestCookies, AcqStep.persistCookies,
                AcqStep.clickProduct], ?_, ?_, ?_, ?_⟩
              · simp [findProductTail, raceWithTimeout, h]
              · decide
              · decide
              · decide
            · rw [Bool.not_eq_true] at h
              refine ⟨[AcqStep.extendedBehavior, AcqStep.harvestCookies,
                AcqStep.persistCookies, AcqStep.clickProduct], ?_, ?_, ?_, ?_⟩
              · simp [findProductTail, raceWithTimeout, h]
              · decide
              · decide
              · decide
  · rfl

/-! ## C8: scroll-and-recheck cookie hunt -/

/-- C8: `huntForCookies` performs at most 5 scroll-and-recheck cycles: if
the session cookie never appears within 5 cycles it performs all 5 and
returns false (giving up on the attempt without throwing); if the cookie
first appears after cycle `k ≤ 5` it returns true having performed
exactly `k` cycles. -/
theorem huntForCookies_spec (found : Nat → Bool) :
    ((∀ k, 1 ≤ k → k ≤ 5 → found k = false) →
        huntForCookies found = (false, 5))
    ∧ (∀ k, 1 ≤ k → k ≤ 5 → found k = true →
        (∀ j, 1 ≤ j → j < k → found j = false) →
        huntForCookies found = (true, k)) := by
  constructor
  · intro h
    have h1 := h 1 (by omega) (by omega)
    have h2 := h 2 (by omega) (by omega)
    have h3 := h 3 (by omega) (by omega)
    have h4 := h 4 (by omega) (by omega)
    have h5 := h 5 (by omega) (by omega)
    simp [huntForCookies, huntGo, h1, h2, h3, h4, h5]
  · intro k hk1 hk5 hfound hbefore
    interval_cases k
    · simp [huntForCookies, huntGo, hfound]
    · have f1 := hbefore 1 (by omega) (by omega)
      simp [huntForCookies, huntGo, hfound, f1]
    · have f1 := hbefore 1 (by omega) (by omega)
      have f2 := hbefore 2 (by omega) (by omega)
      simp [huntForCookies, huntGo, hfound, f1, f2]
    · have f1 := hbefore 1 (by omega) (by omega)
      have f2 := hbefore 2 (by omega) (by omega)
      have f3 := hbefore 3 (by omega) (by omega)
      simp [huntForCookies, huntGo, hfound, f1, f2, f3]
    · have f1 := hbefore 1 (by omega) (by omega)
      have f2 := hbefore 2 (by omega) (by omega)
      have f3 := hbefore 3 (by omega) (by omega)
      have f4 := hbefore 4 (by omega) (by omega)
      simp [huntForCookies, huntGo, hfound, f1, f2, f3, f4]

/-- Witness for C8: when the cookie first appears after the third cycle,
the hunt succeeds after exactly 3 cycles. -/
theorem huntForCookies_spec_witness :
    huntForCookies foundAtThree = (true, 3) :=
  (huntForCookies_spec foundAtThree).2 3 (by omega) (by omega) (by decide)
    (fun j hj1 hj3 => by interval_cases j <;> rfl)

/-! ## C3 and C4: the `scrape` attempt loop -/

/-- The three attempts of the `scrape` loop, unrolled: attempt 1 uses the
original URL, the query string is stripped at attempt 2, and attempt 3
reuses the already-stripped URL. -/
theorem runAttempts_three {α : Type} (outcome : Nat → String → Option α)
    (url : String) :
    runAttempts outcome 3 0 url =
      match outcome 1 url with
      | some r => (some r, url, [url])
      | none =>
          match outcome 2 (stripQuery url) with
          | some r => (some r, stripQuery url, [url, stripQuery url])
          | none =>
              match outcome 3 (stripQuery url) with
              | some r =>
                  (some r, stripQuery url, [url, stripQuery url, stripQuery url])
              | none =>
                  (none, stripQuery url, [url, stripQuery url, stripQuery url]) := by
  rcases h1 : outcome 1 url with _ | v1 <;>
    rcases h2 : outcome 2 (stripQuery url) with _ | v2 <;>
      rcases h3 : outcome 3 (stripQuery url) with _ | v3 <;>
        simp [runAttempts, h1, h2, h3]

/-- Counterexample to C3 as stated: for a query-bearing URL whose every
attempt fails, the structured failure value carries the
**query-stripped** URL (the loop reassigns `productUrl` at attempt 2),
not the original requested URL. -/
theorem scrape_failure_url_cex :
    scrapeModel noExtraction "https://smartstore.naver.com/p?x=1" =
      ScrapeResult.fail
        ⟨"SMARTSTORE_ACCESS_FAILED",
         "Tidak bisa akses smartstore atau cookie X-Wtm-Cpt-Tk tidak ditemukan setelah semua percobaan",
         "https://smartstore.naver.com/p"⟩
      ∧ "https://smartstore.naver.com/p" ≠ "https://smartstore.naver.com/p?x=1" := by
  constructor
  · rfl
  · decide

/-- C3 (amended): when all 3 attempts fail, `scrape` returns — never
throws — a structured failure value with error code
`SMARTSTORE_ACCESS_FAILED`, a message, and the requested product URL as
it stands after the loop's attempt-2 normalization (the query string
stripped; equal to the original exactly when the URL had no query
string).  Totality of `scrapeModel` is the no-exception guarantee: every
per-attempt error is consumed by the loop's catch. -/
theorem scrape_exhaustion_failure {α : Type} (outcome : Nat → String → Option α)
    (url : String) (hfail : ∀ n u, outcome n u = none) :
    scrapeModel outcome url =
      ScrapeResult.fail
        ⟨"SMARTSTORE_ACCESS_FAILED",
         "Tidak bisa akses smartstore atau cookie X-Wtm-Cpt-Tk tidak ditemukan setelah semua percobaan",
         stripQuery url⟩ := by
  unfold scrapeModel
  rw [runAttempts_three, hfail, hfail, hfail]

/-- Witness for C3 (amended): a query-free URL, all attempts failing. -/
theorem scrape_exhaustion_failure_witness :
    scrapeModel noExtraction "https://smartstore.naver.com/item" =
      ScrapeResult.fail
        ⟨"SMARTSTORE_ACCESS_FAILED",
         "Tidak bisa akses smartstore atau cookie X-Wtm-Cpt-Tk tidak ditemukan setelah semua percobaan",
         stripQuery "https://smartstore.naver.com/item"⟩ :=
  scrape_exhaustion_failure noExtraction "https://smartstore.naver.com/item"
    (fun _ _ => rfl)

/-- C4: for every attempt-outcome oracle and every target URL containing
a query string, the URL handed to navigation on attempt 1 is the
original URL, and on attempt 2 and any later attempt it is the URL with
everything from the first `?` onward stripped. -/
theorem scrape_url_normalization {α : Type} (outcome : Nat → String → Option α)
    (url : String) (_hq : jsIncludes url "?" = true) :
    ∀ i, i < (scrapeTrace outcome url).length →
      (scrapeTrace outcome url).getD i "" =
        if i = 0 then url else stripQuery url := by
  unfold scrapeTrace
  rw [runAttempts_three]
  rcases outcome 1 url with _ | v1
  · rcases outcome 2 (stripQuery url) with _ | v2
    · rcases outcome 3 (stripQuery url) with _ | v3
      · intro i hi
        simp only [List.length_cons, List.length_nil] at hi
        interval_cases i <;> simp
      · intro i hi
        simp only [List.length_cons, List.length_nil] at hi
        interval_cases i <;> simp
    · intro i hi
      simp only [List.length_cons, List.length_nil] at hi
      interval_cases i <;> simp
  · intro i hi
    simp only [List.length_cons, List.length_nil] at hi
    interval_cases i <;> simp

/-- Witness for C4: with every attempt failing on a query-bearing URL,
the second navigation uses the stripped URL. -/
theorem scrape_url_normalization_witness :
    jsIncludes "https://smartstore.naver.com/p?x=1" "?" = true
      ∧ (scrapeTrace noExtraction "https://smartstore.naver.com/p?x=1").getD 1 "" =
          if 1 = 0 then "https://smartstore.naver.com/p?x=1"
          else stripQuery "https://smartstore.naver.com/p?x=1" :=
  ⟨by decide,
   scrape_url_normalization noExtraction "https://smartstore.naver.com/p?x=1"
     (by decide) 1 (by decide)⟩

/-! ## C6: `initializeCookies` exhaustion -/

/-- Counterexample to C6 as stated: in the run where every attempt fails
inside `browseNaverAndGetCookies`, the flow performs 6 `closeBrowser`
invocations (the callee's `finally` block plus the caller's `catch`
handler, per attempt), not one close per attempt. -/
theorem initCookies_close_count_cex :
    (initCookiesRun allAttemptsFail).closes = 6 ∧ (6 : Nat) ≠ 3 := by
  constructor
  · rfl
  · decide

/-- C6 (amended): when every attempt of the acquisition flow fails, the
flow returns the boolean `false` — never throws — after exactly 3
attempts, with exactly 3 browser launches (one per attempt) and 6
`closeBrowser` invocations (two per failed attempt: the `finally` block
of `browseNaverAndGetCookies` and the `catch` handler of
`initializeCookies`; the second call acts on an already-closed
browser). -/
theorem initCookies_exhaustion (browseOk : Nat → Bool)
    (hfail : ∀ n, browseOk n = false) :
    initCookiesRun browseOk = ⟨false, 3, 6⟩ := by
  simp [initCookiesRun, initGo, hfail]

/-- Witness for C6 (amended): the all-attempts-fail oracle. -/
theorem initCookies_exhaustion_witness :
    initCookiesRun allAttemptsFail = ⟨false, 3, 6⟩ :=
  initCookies_exhaustion allAttemptsFail (fun _ => rfl)

/-! ## C1: cookie merge -/

/-- Keys of `mapSet m k v` are the keys of `m` together with `k`. -/
theorem mem_keys_mapSet (m : List (String × Cookie)) (k x : String) (v : Cookie) :
    x ∈ (mapSet m k v).map Prod.fst ↔ x ∈ m.map Prod.fst ∨ x = k := by
  induction m with
  | nil => simp [mapSet]
  | cons p m ih =>
      obtain ⟨k', w⟩ := p
      by_cases h : k' = k
      · subst h
        simp [mapSet]
        tauto
      · simp [mapSet, h, ih]
        tauto

/-- `mapSet` preserves distinctness of keys. -/
theorem nodup_keys_mapSet (m : List (String × Cookie)) (k : String) (v : Cookie)
    (h : (m.map Prod.fst).Nodup) :
    ((mapSet m k v).map Prod.fst).Nodup := by
  induction m with
  | nil => simp [mapSet]
  | cons p m ih =>
      obtain ⟨k', w⟩ := p
      simp only [List.map_cons, List.nodup_cons] at h
      obtain ⟨hk', hm⟩ := h
      by_cases he : k' = k
      · subst he
        simp [mapSet, List.nodup_cons, hk', hm]
      · simp only [mapSet, if_neg he, List.map_cons, List.nodup_cons]
        refine ⟨?_, ih hm⟩
        rw [mem_keys_mapSet]
        push_neg
        exact ⟨hk', he⟩

/-- `mapSet m k v` with `cookieKey v = k` preserves the invariant that
every stored value's cookie key is its map key. -/
theorem keyinv_mapSet (m : List (String × Cookie)) (k : String) (v : Cookie)
    (h : ∀ p ∈ m, cookieKey p.2 = p.1) (hv : cookieKey v = k) :
    ∀ p ∈ mapSet m k v, cookieKey p.2 = p.1 := by
  induction m with
  | nil =>
      intro p hp
      have hp' : p = (k, v) := by simpa [mapSet] using hp
      subst hp'
      exact hv
  | cons q m ih =>
      obtain ⟨k', w⟩ := q
      intro p hp
      simp only [mapSet] at hp
      by_cases he : k' = k
      · rw [if_pos he] at hp
        rcases List.mem_cons.mp hp with h1 | h2
        · subst h1
          exact hv
        · exact h p (List.mem_cons_of_mem _ h2)
      · rw [if_neg he] at hp
        rcases List.mem_cons.mp hp with h1 | h2
        · subst h1
          exact h (k', w) (List.mem_cons_self _ _)
        · exact ih (fun r hr => h r (List.mem_cons_of_mem _ hr)) p h2

/-- `mergeInsert` either performs a `mapSet` at the new cookie's key or
leaves the map unchanged. -/
theorem mergeInsert_cases (m : List (String × Cookie)) (c : Cookie) :
    mergeInsert m c = mapSet m (cookieKey c) c ∨ mergeInsert m c = m := by
  unfold mergeInsert
  rcases hg : mapGet m (cookieKey c) with _ | e
  · exact Or.inl rfl
  · by_cases h1 : getCookieSource e = CookieSource.naver
        ∧ getCookieSource c = CookieSource.shopping
    · exact Or.inl (by simp [h1])
    · by_cases h2 : getCookieSource e = CookieSource.shopping
          ∧ getCookieSource c = CookieSource.naver
      · exact Or.inr (by simp [h1, h2])
      · exact Or.inl (by simp [h1, h2])

/-- The `mergeCookies` fold keeps keys distinct and keeps every stored
value under its own cookie key. -/
theorem foldl_mergeInsert_inv (l : List Cookie) :
    ∀ m : List (String × Cookie),
      ((m.map Prod.fst).Nodup ∧ ∀ p ∈ m, cookieKey p.2 = p.1) →
      (((l.foldl mergeInsert m).map Prod.fst).Nodup
        ∧ ∀ p ∈ l.foldl mergeInsert m, cookieKey p.2 = p.1) := by
  induction l with
  | nil =>
      intro m h
      simpa using h
  | cons c l ih =>
      intro m h
      simp only [List.foldl_cons]
      apply ih
      rcases mergeInsert_cases m c with he | he <;> rw [he]
      · exact ⟨nodup_keys_mapSet m _ c h.1, keyinv_mapSet m (cookieKey c) c h.2 rfl⟩
      · exact h

/-- C1: (a) for every input list, `mergeCookies` returns at most one
cookie per `(name, domain)` identity key; (b) for two cookies sharing a
key whose heuristic sources differ, the shopping-side cookie is the one
retained in either input order; (c) for two cookies sharing a key with
equal sources, the later cookie wins. -/
theorem mergeCookies_key_precedence (cookies : List Cookie) (c1 c2 : Cookie) :
    (mergeCookies cookies).Pairwise
        (fun a b => ¬(a.name = b.name ∧ a.domain = b.domain))
    ∧ (cookieKey c1 = cookieKey c2 →
        ((getCookieSource c1 = CookieSource.shopping →
          getCookieSource c2 = CookieSource.naver →
          mergeCookies [c1, c2] = [c1] ∧ mergeCookies [c2, c1] = [c1])
         ∧ (getCookieSource c1 = getCookieSource c2 →
            mergeCookies [c1, c2] = [c2]))) := by
  constructor
  · unfold mergeCookies
    split
    · exact List.Pairwise.nil
    · have H := foldl_mergeInsert_inv cookies []
        ⟨by simp, by intro p hp; cases hp⟩
      have hpw1 : (cookies.foldl mergeInsert []).Pairwise
          (fun p q : String × Cookie => p.1 ≠ q.1) :=
        (List.pairwise_map).mp H.1
      have hpw2 : (cookies.foldl mergeInsert []).Pairwise
          (fun p q : String × Cookie => cookieKey p.2 ≠ cookieKey q.2) := by
        refine List.Pairwise.imp_of_mem ?_ hpw1
        intro p q hp hq hne hk
        exact hne (by rw [← H.2 p hp, ← H.2 q hq, hk])
      refine (List.pairwise_map).mpr (hpw2.imp ?_)
      intro p q hne hnd
      apply hne
      unfold cookieKey
      rw [hnd.1, hnd.2]
  · intro hkey
    constructor
    · intro hs1 hs2
      constructor
      · simp [mergeCookies, mergeInsert, mapGet, mapSet, hkey, hs1, hs2]
      · simp [mergeCookies, mergeInsert, mapGet, mapSet, hkey, hs1, hs2]
    · intro heq
      rcases hsplit : getCookieSource c1 with _ | _ <;>
        · rw [hsplit] at heq
          simp [mergeCookies, mergeInsert, mapGet, mapSet, hkey, hsplit, heq.symm]

/-- Witness for C1: a shopping-side and a portal-side cookie sharing the
key `tok-ex.com`; the shopping cookie survives both orders, and two
equal-source cookies resolve to the later one. -/
theorem mergeCookies_key_precedence_witness :
    (mergeCookies [shopPathCookie, portalPathCookie] = [shopPathCookie]
      ∧ mergeCookies [portalPathCookie, shopPathCookie] = [shopPathCookie])
    ∧ mergeCookies [portalPathCookie, portalPathCookie2] = [portalPathCookie2] :=
  ⟨((mergeCookies_key_precedence [] shopPathCookie portalPathCookie).2
      (by decide)).1 (by decide) (by decide),
   ((mergeCookies_key_precedence [] portalPathCookie portalPathCookie2).2
      (by decide)).2 (by decide)⟩

end NaverScraper
